import Mathlib

/-!
Verification development for the yt-dlp-api service (src/index.ts).

The core under study is the format-selection algorithm of `handleDownload`
(two-phase selection of a combined format or a video+audio pair under a
size budget), the download orchestration's single-outcome discipline, the
retention sweeper `cleanUpOldFiles`, and the constructor's configuration
defaulting.

Modelling conventions:
* A JavaScript number-valued field that may be absent is an `Option Int`
  (`none` = `undefined`).
* The JavaScript expression `x || y` on such values is `jsOrNum`: it yields
  `y` whenever `x` is `undefined` or `0` (numeric falsiness).
* `Array.prototype.sort` with a consistent comparator is a stable sort; it
  is modelled by `List.insertionSort` (also stable) with the relation
  "comparator result ≤ 0".
-/

namespace YtDlpApi

/-- One entry of the `formats` array of the yt-dlp JSON catalog, with the
fields `handleDownload` reads.  String-valued fields that the code only
compares against literals are plain `String`s. -/
structure Format where
  format_id : String
  vcodec : String
  acodec : String
  ext : String
  filesize : Option Int
  filesize_approx : Option Int
  preference : Option Int
deriving Repr, DecidableEq

/-- JavaScript `x || y` for optional numbers: `x` is falsy when it is
`undefined` or `0`. -/
def jsOrNum : Option Int → Option Int → Option Int
  | some v, b => if v = 0 then b else some v
  | none, b => b

/-- The value `f.filesize || f.filesize_approx` used by the Phase-1 budget
walk (line 183 of src/index.ts). -/
def walkSize (f : Format) : Option Int :=
  jsOrNum f.filesize f.filesize_approx

/-- The value `f.filesize || f.filesize_approx || 0` used by the Phase-1
sort comparator (line 179) and the Phase-2 combined-size computation
(lines 224-225). -/
def sortSize (f : Format) : Int :=
  (walkSize f).getD 0

/-- The value `f.preference || 0` (quality ranking, lines 175-176). -/
def prefOf (f : Format) : Int :=
  f.preference.getD 0

/-- The allowlist `['mp4', 'webm']` (line 166). -/
def allowedExtensions : List String := ["mp4", "webm"]

/-- Condition `f.filesize !== undefined || f.filesize_approx !== undefined`
(line 171). -/
def sizeKnown (f : Format) : Bool :=
  f.filesize.isSome || f.filesize_approx.isSome

/-- The Phase-1 filter (lines 169-172): both tracks present, size known,
allowed container. -/
def combinedFilter (f : Format) : Bool :=
  f.vcodec != "none" && f.acodec != "none" && sizeKnown f &&
    allowedExtensions.contains f.ext

/-- The Phase-2 video-only filter (lines 198-201). -/
def videoFilter (f : Format) : Bool :=
  f.vcodec != "none" && f.acodec == "none" && sizeKnown f &&
    allowedExtensions.contains f.ext

/-- The Phase-2 audio-only filter (lines 209-212). -/
def audioFilter (f : Format) : Bool :=
  f.acodec != "none" && f.vcodec == "none" && sizeKnown f &&
    allowedExtensions.contains f.ext

/-- Order induced by the Phase-1 comparator (lines 173-180): `a` may be
placed before `b` iff the comparator value `cmp(a, b)` is `≤ 0`, i.e.
higher preference first, and on equal preference larger `sortSize` first. -/
def combinedBefore (a b : Format) : Prop :=
  prefOf b < prefOf a ∨ (prefOf a = prefOf b ∧ sortSize b ≤ sortSize a)

instance : DecidableRel combinedBefore := fun a b =>
  inferInstanceAs (Decidable (prefOf b < prefOf a ∨
    (prefOf a = prefOf b ∧ sortSize b ≤ sortSize a)))

instance : IsTotal Format combinedBefore where
  total a b := by
    unfold combinedBefore
    omega

instance : IsTrans Format combinedBefore where
  trans a b c hab hbc := by
    unfold combinedBefore at *
    omega

/-- Order induced by the Phase-2 comparator (lines 202-206 and 213-217):
preference descending only. -/
def prefBefore (a b : Format) : Prop :=
  prefOf b ≤ prefOf a

instance : DecidableRel prefBefore := fun a b =>
  inferInstanceAs (Decidable (prefOf b ≤ prefOf a))

instance : IsTotal Format prefBefore where
  total a b := le_total (prefOf b) (prefOf a)

instance : IsTrans Format prefBefore where
  trans _ _ _ hab hbc := le_trans hbc hab

/-- The truthiness-guarded budget test of the Phase-1 walk (line 184):
`if (size && size <= this.maxDownloadSizeBytes)`. -/
def walkOk (budget : Int) (f : Format) : Bool :=
  (walkSize f).any (fun v => v != 0 && decide (v ≤ budget))

/-- Phase 1 (lines 169-191): filter the catalog to combined formats, sort
with the Phase-1 comparator, and return the first descriptor passing the
budget walk, if any. -/
def phase1 (formats : List Format) (budget : Int) : Option Format :=
  (List.insertionSort combinedBefore (formats.filter combinedFilter)).find?
    (walkOk budget)

/-- Best video-only candidate (lines 198-206, 219): head of the
preference-sorted video-only list. -/
def bestVideo (formats : List Format) : Option Format :=
  (List.insertionSort prefBefore (formats.filter videoFilter)).head?

/-- Best audio-only candidate (lines 209-217, 220). -/
def bestAudio (formats : List Format) : Option Format :=
  (List.insertionSort prefBefore (formats.filter audioFilter)).head?

/-- The selection errors `handleDownload` can report: the 413 response of
lines 234-237 and the 500 "no valid formats" response of line 240. -/
inductive SelectionError where
  | tooLarge (combinedSize budget : Int)
  | noViableFormats
deriving Repr, DecidableEq

/-- The selector's successful outcome: either a single combined descriptor
(Phase 1) or a video-only/audio-only pair to be muxed (Phase 2), together
with the recorded `estimatedFileSize`. -/
inductive DownloadPlan where
  | combined (f : Format) (estimatedSize : Int)
  | merged (v a : Format) (estimatedSize : Int)
deriving Repr, DecidableEq

/-- The `selectedFormatCode` string handed to yt-dlp (lines 185 and 228). -/
def planSelector : DownloadPlan → String
  | .combined f _ => f.format_id
  | .merged v a _ => v.format_id ++ "+" ++ a.format_id

/-- The `requiresMuxing` flag (lines 187 and 230). -/
def planRequiresMuxing : DownloadPlan → Bool
  | .combined _ _ => false
  | .merged _ _ _ => true

/-- The recorded `estimatedFileSize` (lines 186 and 229). -/
def planEstimatedSize : DownloadPlan → Int
  | .combined _ s => s
  | .merged _ _ s => s

/-- Phase 2 (lines 194-242): take the best video-only and audio-only
candidates; if either is missing report `noViableFormats`; otherwise sum
their `|| 0`-defaulted sizes and either emit the merged plan or report
`tooLarge`. -/
def phase2 (formats : List Format) (budget : Int) :
    Except SelectionError DownloadPlan :=
  match bestVideo formats, bestAudio formats with
  | some v, some a =>
      let combinedSize := sortSize v + sortSize a
      if combinedSize ≤ budget then .ok (.merged v a combinedSize)
      else .error (.tooLarge combinedSize budget)
  | some _, none => .error .noViableFormats
  | none, _ => .error .noViableFormats

/-- The complete selector of `handleDownload` (lines 154-249).  Phase 2 is
entered when the Phase-1 walk selects nothing, and also when it selects a
descriptor whose `format_id` is the empty string, because the guard on
line 194 is the truthiness test `if (!selectedFormatCode)`.  (The final
`if (!selectedFormatCode)` on line 245 is unreachable: every Phase-2
success assigns the string `videoId + "+" + audioId`, which contains `+`
and is therefore truthy.) -/
def select (formats : List Format) (budget : Int) :
    Except SelectionError DownloadPlan :=
  match phase1 formats budget with
  | some f =>
      if f.format_id = "" then phase2 formats budget
      else .ok (.combined f ((walkSize f).getD 0))
  | none => phase2 formats budget

/-- Condition under which control reaches Phase 2 (line 194):
`selectedFormatCode` is still falsy after the Phase-1 walk. -/
def enteredPhase2 (formats : List Format) (budget : Int) : Bool :=
  match phase1 formats budget with
  | some f => f.format_id == ""
  | none => true

/-- Effective size as the specification defines it: the exact size when
the exact-size field is present, otherwise the approximate size, otherwise
unknown.  Modelled from the spec's words ("effective size = exact if
present else approximate else unknown") for comparison with the code's
`walkSize` / `sortSize`. -/
def specEffectiveSize (f : Format) : Option Int :=
  match f.filesize with
  | some v => some v
  | none => f.filesize_approx

/-- Strict ranking used in the statement of Phase-1 optimality: `g` ranks
strictly higher than `f` in the lexicographic (preference descending,
size descending) order. -/
def rankHigher (g f : Format) : Prop :=
  prefOf f < prefOf g ∨ (prefOf g = prefOf f ∧ sortSize f < sortSize g)

/-- A descriptor excluded from selection for one of the reasons the
specification lists: disallowed container, no track at all, or unknown
size. -/
def excludedDescriptor (f : Format) : Prop :=
  allowedExtensions.contains f.ext = false ∨
  (f.vcodec = "none" ∧ f.acodec = "none") ∨
  (f.filesize = none ∧ f.filesize_approx = none)

instance : DecidablePred excludedDescriptor := fun f =>
  inferInstanceAs (Decidable (allowedExtensions.contains f.ext = false ∨
    (f.vcodec = "none" ∧ f.acodec = "none") ∨
    (f.filesize = none ∧ f.filesize_approx = none)))

/-! ### Download orchestration (lines 275-337)

After spawning the yt-dlp process, `handleDownload` installs three
competing completion handlers: the `setTimeout` callback (kill + 504), the
process `close` handler (200 on exit code 0, 500 otherwise) and the
process `error` handler (500).  Each handler is guarded by
`if (!res.headersSent)`, and `close`/`error` call `clearTimeout`.  The
model replays an arbitrary sequence of these events against the
handler-visible state. -/

/-- An asynchronous event that can reach the orchestration handlers. -/
inductive ProcEvent where
  | timeoutFired
  | closed (code : Int)
  | errored
deriving Repr, DecidableEq

/-- The outcome written to the HTTP response: 504 timeout, 200 success, or
500 failure. -/
inductive Outcome where
  | timedOut
  | succeeded
  | failed
deriving Repr, DecidableEq

/-- State the handlers observe: whether a response has been written
(`res.headersSent`) and whether the download timer is still pending
(`clearTimeout` not yet called). -/
structure OrchState where
  headersSent : Bool
  timerActive : Bool
deriving Repr, DecidableEq

/-- State right after `spawn`: nothing sent, timer armed (line 287). -/
def initialOrchState : OrchState := ⟨false, true⟩

/-- One handler activation.  A fired timer whose timeout was already
cleared does nothing (the callback never runs).  Every handler that writes
a response sets `headersSent`; `close` and `error` clear the timer
(lines 287-337). -/
def handleEvent : OrchState → ProcEvent → OrchState × Option Outcome
  | s, .timeoutFired =>
      if s.timerActive then
        if s.headersSent then (⟨s.headersSent, false⟩, none)
        else (⟨true, false⟩, some .timedOut)
      else (s, none)
  | s, .closed code =>
      if s.headersSent then (⟨s.headersSent, false⟩, none)
      else (⟨true, false⟩, some (if code = 0 then .succeeded else .failed))
  | s, .errored =>
      if s.headersSent then (⟨s.headersSent, false⟩, none)
      else (⟨true, false⟩, some .failed)

/-- Replay a sequence of events, collecting every outcome written to the
response. -/
def runEvents : OrchState → List ProcEvent → List Outcome
  | _, [] => []
  | s, e :: es =>
      match handleEvent s e with
      | (s', some o) => o :: runEvents s' es
      | (s', none) => runEvents s' es

/-- The outcome the first-arriving event commits. -/
def eventOutcome : ProcEvent → Outcome
  | .timeoutFired => .timedOut
  | .closed code => if code = 0 then .succeeded else .failed
  | .errored => .failed

/-! ### Retention sweeper (`cleanUpOldFiles`, lines 340-373)

Each directory entry is examined independently: a failed `fs.stat` is
logged and skipped, an entry older than the retention threshold is
unlinked, and a failed `fs.unlink` is logged.  The model records, for each
entry, the stat result (`none` = stat error) and whether unlink would
succeed, and returns the names actually deleted. -/

/-- One entry of the download directory as seen by a sweep. -/
structure SweepEntry where
  name : String
  birthtimeMs : Option Int
  unlinkOk : Bool
deriving Repr, DecidableEq

/-- The sweep over a directory listing (lines 350-370): skip entries whose
stat fails, delete entries with `now - birthtimeMs > retentionMs`, and
skip (after logging) entries whose unlink fails. -/
def cleanUpOldFiles (now retentionMs : Int) : List SweepEntry → List String
  | [] => []
  | e :: rest =>
      match e.birthtimeMs with
      | none => cleanUpOldFiles now retentionMs rest
      | some b =>
          if now - b > retentionMs then
            if e.unlinkOk then e.name :: cleanUpOldFiles now retentionMs rest
            else cleanUpOldFiles now retentionMs rest
          else cleanUpOldFiles now retentionMs rest

/-- Whether a single entry ends up deleted: stat succeeded, age strictly
above the threshold, unlink succeeded. -/
def sweepDeletes (now retentionMs : Int) (e : SweepEntry) : Bool :=
  (e.birthtimeMs.any fun b => decide (now - b > retentionMs)) && e.unlinkOk

/-! ### Constructor configuration defaults (lines 32-44) -/

/-- The optional constructor configuration (`ApiConfig`), numeric options
only — `downloadDir` is a string path irrelevant to the numeric-default
claim. -/
structure ApiConfig where
  port : Option Int := none
  timeout : Option Int := none
  fileRetentionTimeSeconds : Option Int := none
  cleanUpIntervalSeconds : Option Int := none
  maxDownloadSizeMB : Option Int := none
deriving Repr, DecidableEq

/-- JavaScript `config?.x || d`: the default is used when the option is
absent or `0`. -/
def jsOrDefault (x : Option Int) (d : Int) : Int :=
  match x with
  | some v => if v = 0 then d else v
  | none => d

/-- The numeric fields the constructor computes. -/
structure ApiSettings where
  port : Int
  timeout : Int
  fileRetentionTimeMs : Int
  cleanUpIntervalMs : Int
  maxDownloadSizeBytes : Int
deriving Repr, DecidableEq

/-- The constructor's settings computation (lines 34-39). -/
def mkSettings (config : ApiConfig) : ApiSettings where
  port := jsOrDefault config.port 3005
  timeout := jsOrDefault config.timeout (15 * 1000)
  fileRetentionTimeMs := jsOrDefault config.fileRetentionTimeSeconds 3600 * 1000
  cleanUpIntervalMs := jsOrDefault config.cleanUpIntervalSeconds 600 * 1000
  maxDownloadSizeBytes := jsOrDefault config.maxDownloadSizeMB 100 * 1024 * 1024

/-! ### Concrete descriptors used by counterexamples and witnesses -/

/-- Combined mp4 descriptor with exact size `0` and no approximate size. -/
def cexCombinedZero : Format := ⟨"f137", "avc1", "mp4a", "mp4", some 0, none, some 5⟩

/-- Another combined mp4 descriptor with exact size `0` and no approximate
size. -/
def cexZeroNoApprox : Format := ⟨"f18", "avc1", "mp4a", "mp4", some 0, none, some 1⟩

/-- Combined mp4 descriptor with exact size `0` and approximate size `5`. -/
def cexZeroWithApprox : Format := ⟨"f22", "avc1", "mp4a", "mp4", some 0, some 5, none⟩

/-- Video-only descriptor with exact size `0` and approximate size `200`. -/
def cexVideoZero : Format := ⟨"v1", "vp9", "none", "webm", some 0, some 200, none⟩

/-- Audio-only descriptor with exact size `10`. -/
def cexAudioTen : Format := ⟨"a1", "none", "opus", "webm", some 10, none, none⟩

/-- Well-behaved combined descriptor, size 50, preference 5. -/
def wCombined : Format := ⟨"w50", "avc1", "mp4a", "mp4", some 50, none, some 5⟩

/-- Well-behaved video-only descriptor, size 80. -/
def wVideo : Format := ⟨"wV", "vp9", "none", "mp4", some 80, none, some 9⟩

/-- Well-behaved audio-only descriptor, size 10. -/
def wAudio : Format := ⟨"wA", "none", "opus", "webm", some 10, none, some 9⟩

/-- Video-only descriptor, size 90 (over-budget pair half). -/
def wVideoBig : Format := ⟨"Vb", "vp9", "none", "mp4", some 90, none, some 3⟩

/-- Audio-only descriptor, size 20 (over-budget pair half). -/
def wAudioBig : Format := ⟨"Ab", "none", "opus", "webm", some 20, none, some 3⟩

/-- Descriptor with neither track. -/
def wNoTrack : Format := ⟨"bad", "none", "none", "mp4", some 10, none, none⟩

/-! ## Helper lemmas -/

/-- In a list that is pairwise ordered by `r`, the first element found by
`find?` is `r`-before (or equal to) every element satisfying the
predicate. -/
theorem find_first_of_pairwise {α : Type} {r : α → α → Prop} {p : α → Bool}
    {L : List α} {f : α} (hs : L.Pairwise r) (hf : L.find? p = some f) :
    ∀ g ∈ L, p g = true → r f g ∨ f = g := by
  induction L with
  | nil => simp at hf
  | cons x xs ih =>
    rcases List.pairwise_cons.mp hs with ⟨hx, hxs⟩
    by_cases hpx : p x = true
    · rw [List.find?_cons_of_pos _ hpx] at hf
      injection hf with hf
      subst hf
      intro g hg hpg
      rcases List.mem_cons.mp hg with rfl | hg
      · exact Or.inr rfl
      · exact Or.inl (hx g hg)
    · rw [List.find?_cons_of_neg _ hpx] at hf
      intro g hg hpg
      rcases List.mem_cons.mp hg with rfl | hg
      · exact absurd hpg hpx
      · exact ih hxs hf g hg hpg

/-- A Phase-1 result is an eligible member of the catalog that passes the
budget walk. -/
theorem phase1_mem {fs : List Format} {budget : Int} {f : Format}
    (h : phase1 fs budget = some f) :
    f ∈ fs ∧ combinedFilter f = true ∧ walkOk budget f = true := by
  have hmem := List.mem_of_find?_eq_some h
  rw [List.mem_insertionSort, List.mem_filter] at hmem
  exact ⟨hmem.1, hmem.2, List.find?_some h⟩

/-- Phase 1 finds something as soon as an eligible descriptor passes the
budget walk. -/
theorem phase1_isSome {fs : List Format} {budget : Int}
    (hex : ∃ f ∈ fs, combinedFilter f = true ∧ walkOk budget f = true) :
    ∃ f, phase1 fs budget = some f := by
  obtain ⟨f, hmem, hcf, hwk⟩ := hex
  have hfL : f ∈ List.insertionSort combinedBefore (fs.filter combinedFilter) := by
    rw [List.mem_insertionSort, List.mem_filter]
    exact ⟨hmem, hcf⟩
  exact Option.isSome_iff_exists.mp (List.find?_isSome.mpr ⟨f, hfL, hwk⟩)

/-- The best video-only candidate is a video-only member of the catalog. -/
theorem bestVideo_mem {fs : List Format} {v : Format}
    (h : bestVideo fs = some v) : v ∈ fs ∧ videoFilter v = true := by
  have hmem : v ∈ List.insertionSort prefBefore (fs.filter videoFilter) :=
    List.mem_of_mem_head? (Option.mem_def.mpr h)
  rw [List.mem_insertionSort, List.mem_filter] at hmem
  exact hmem

/-- The best audio-only candidate is an audio-only member of the catalog. -/
theorem bestAudio_mem {fs : List Format} {a : Format}
    (h : bestAudio fs = some a) : a ∈ fs ∧ audioFilter a = true := by
  have hmem : a ∈ List.insertionSort prefBefore (fs.filter audioFilter) :=
    List.mem_of_mem_head? (Option.mem_def.mpr h)
  rw [List.mem_insertionSort, List.mem_filter] at hmem
  exact hmem

/-- When Phase 1 selects a descriptor with a truthy id, the selector
returns the combined plan for it. -/
theorem select_of_phase1 {fs : List Format} {budget : Int} {f : Format}
    (h : phase1 fs budget = some f) (hid : f.format_id ≠ "") :
    select fs budget = .ok (.combined f ((walkSize f).getD 0)) := by
  unfold select
  rw [h]
  simp [hid]

/-- When control reaches Phase 2, the selector returns whatever Phase 2
produces. -/
theorem select_of_entered {fs : List Format} {budget : Int}
    (h : enteredPhase2 fs budget = true) :
    select fs budget = phase2 fs budget := by
  unfold select
  unfold enteredPhase2 at h
  cases hp : phase1 fs budget with
  | none => rfl
  | some f =>
    rw [hp] at h
    simp only [beq_iff_eq] at h
    simp [h]

/-- A descriptor excluded for any of the specification's reasons fails all
three eligibility filters. -/
theorem filters_false_of_excluded {f : Format} (h : excludedDescriptor f) :
    combinedFilter f = false ∧ videoFilter f = false ∧ audioFilter f = false := by
  rcases h with hext | ⟨hv, ha⟩ | ⟨hs, hsa⟩
  · refine ⟨?_, ?_, ?_⟩
    · unfold combinedFilter; rw [hext]; simp
    · unfold videoFilter; rw [hext]; simp
    · unfold audioFilter; rw [hext]; simp
  · simp [combinedFilter, videoFilter, audioFilter, hv, ha]
  · simp [combinedFilter, videoFilter, audioFilter, sizeKnown, hs, hsa]

/-- A successful Phase 2 is a merged plan built from the best video-only
and audio-only candidates. -/
theorem phase2_ok_inv {fs : List Format} {budget : Int} {p : DownloadPlan}
    (h : phase2 fs budget = .ok p) :
    ∃ v a s, p = .merged v a s ∧ v ∈ fs ∧ videoFilter v = true ∧
      a ∈ fs ∧ audioFilter a = true := by
  unfold phase2 at h
  cases hv : bestVideo fs with
  | none => rw [hv] at h; exact absurd h (by simp)
  | some v =>
    cases ha : bestAudio fs with
    | none => rw [hv, ha] at h; exact absurd h (by simp)
    | some a =>
      rw [hv, ha] at h
      have h' : (if sortSize v + sortSize a ≤ budget then
          (Except.ok (DownloadPlan.merged v a (sortSize v + sortSize a)) :
            Except SelectionError DownloadPlan)
          else .error (.tooLarge (sortSize v + sortSize a) budget)) = .ok p := h
      by_cases hb : sortSize v + sortSize a ≤ budget
      · rw [if_pos hb] at h'
        injection h' with h'
        exact ⟨v, a, _, h'.symm, (bestVideo_mem hv).1, (bestVideo_mem hv).2,
          (bestAudio_mem ha).1, (bestAudio_mem ha).2⟩
      · rw [if_neg hb] at h'
        exact absurd h' (by simp)

/-- Any successful selection is either a combined plan for an eligible
combined descriptor or a merged plan for eligible video-only/audio-only
candidates. -/
theorem select_ok_inv {fs : List Format} {budget : Int} {p : DownloadPlan}
    (h : select fs budget = .ok p) :
    (∃ g s, p = .combined g s ∧ g ∈ fs ∧ combinedFilter g = true) ∨
    (∃ v a s, p = .merged v a s ∧ v ∈ fs ∧ videoFilter v = true ∧
      a ∈ fs ∧ audioFilter a = true) := by
  unfold select at h
  cases hp : phase1 fs budget with
  | none => rw [hp] at h; exact Or.inr (phase2_ok_inv h)
  | some g =>
    rw [hp] at h
    have h' : (if g.format_id = "" then phase2 fs budget
        else .ok (.combined g ((walkSize g).getD 0))) = .ok p := h
    by_cases hid : g.format_id = ""
    · rw [if_pos hid] at h'
      exact Or.inr (phase2_ok_inv h')
    · rw [if_neg hid] at h'
      injection h' with h'
      exact Or.inl ⟨g, _, h'.symm, (phase1_mem hp).1, (phase1_mem hp).2.1⟩

/-- Once a response has been written, no later event emits an outcome. -/
theorem runEvents_sent :
    ∀ (evs : List ProcEvent) (s : OrchState), s.headersSent = true →
      runEvents s evs = [] := by
  intro evs
  induction evs with
  | nil => intro s _; rfl
  | cons e es ih =>
    intro s hs
    cases s with
    | mk hdr tmr =>
      simp only [] at hs
      subst hs
      cases e with
      | timeoutFired =>
        cases tmr
        · simpa [runEvents, handleEvent] using ih _ rfl
        · simpa [runEvents, handleEvent] using ih _ rfl
      | closed code => simpa [runEvents, handleEvent] using ih _ rfl
      | errored => simpa [runEvents, handleEvent] using ih _ rfl

/-- The sweep is the per-entry deletion test mapped over the listing. -/
theorem cleanUpOldFiles_eq_filter (now retentionMs : Int) :
    ∀ es : List SweepEntry,
      cleanUpOldFiles now retentionMs es =
        (es.filter (sweepDeletes now retentionMs)).map SweepEntry.name := by
  intro es
  induction es with
  | nil => rfl
  | cons e rest ih =>
    cases hb : e.birthtimeMs with
    | none => simp [cleanUpOldFiles, hb, ih, List.filter, sweepDeletes]
    | some b =>
      by_cases hage : now - b > retentionMs
      · by_cases hu : e.unlinkOk = true
        · simp [cleanUpOldFiles, hb, hage, hu, ih, List.filter_cons, sweepDeletes]
        · simp only [Bool.not_eq_true] at hu
          simp [cleanUpOldFiles, hb, hage, hu, ih, List.filter_cons, sweepDeletes]
      · simp [cleanUpOldFiles, hb, hage, ih, List.filter_cons, sweepDeletes]

/-! ## Claim theorems -/

/-- C1 counterexample: the catalog holding the single combined mp4
descriptor `cexCombinedZero` (both tracks, exact size `0` — a known
effective size of `0`, within the budget `100`) makes the claim's
hypothesis true, yet the selector reports `noViableFormats` instead of a
Combined plan: the Phase-1 walk's truthiness test `if (size && ...)` skips
the descriptor, and Phase 2 then finds no single-track candidates. -/
theorem C1_counterexample :
    combinedFilter cexCombinedZero = true ∧
    specEffectiveSize cexCombinedZero = some 0 ∧
    select [cexCombinedZero] 100 = .error .noViableFormats :=
  ⟨rfl, rfl, rfl⟩

/-- C1 (amended): for every catalog whose descriptors all carry nonempty
ids, if some eligible combined descriptor passes the truthy budget walk
(code effective size defined, nonzero and within budget), the selector
returns a Combined plan for an in-budget eligible descriptor than which no
other in-budget eligible descriptor ranks strictly higher in the
lexicographic (preference descending, size descending) order, and Phase 2
is never entered. -/
theorem C1_amended (fs : List Format) (budget : Int)
    (hids : ∀ f ∈ fs, f.format_id ≠ "")
    (hex : ∃ f ∈ fs, combinedFilter f = true ∧ walkOk budget f = true) :
    ∃ f, select fs budget = .ok (.combined f ((walkSize f).getD 0)) ∧
      f ∈ fs ∧ combinedFilter f = true ∧ walkOk budget f = true ∧
      ∀ g ∈ fs, combinedFilter g = true → walkOk budget g = true →
        ¬ rankHigher g f := by
  obtain ⟨f, hp⟩ := phase1_isSome hex
  obtain ⟨hmem, hcf, hwk⟩ := phase1_mem hp
  refine ⟨f, select_of_phase1 hp (hids f hmem), hmem, hcf, hwk, ?_⟩
  intro g hg hgcf hgwk hrank
  have hgL : g ∈ List.insertionSort combinedBefore (fs.filter combinedFilter) := by
    rw [List.mem_insertionSort, List.mem_filter]
    exact ⟨hg, hgcf⟩
  have hsorted : (List.insertionSort combinedBefore
      (fs.filter combinedFilter)).Pairwise combinedBefore :=
    List.sorted_insertionSort combinedBefore (fs.filter combinedFilter)
  rcases find_first_of_pairwise hsorted hp g hgL hgwk with hle | rfl
  · unfold combinedBefore at hle
    unfold rankHigher at hrank
    omega
  · unfold rankHigher at hrank
    omega

/-- C1 witness: the amended theorem applied to a one-descriptor catalog
within budget. -/
theorem C1_amended_witness :
    ∃ f, select [wCombined] 100 = .ok (.combined f ((walkSize f).getD 0)) ∧
      f ∈ [wCombined] ∧ combinedFilter f = true ∧ walkOk 100 f = true ∧
      ∀ g ∈ [wCombined], combinedFilter g = true → walkOk 100 g = true →
        ¬ rankHigher g f :=
  C1_amended [wCombined] 100 (by decide) ⟨wCombined, by decide, by decide⟩

/-- C2 counterexample: the catalog `[cexVideoZero, cexAudioTen]` has no
combined descriptor at all, an eligible video-only and audio-only
descriptor whose spec effective sizes are `0` and `10` (sum `10 ≤ 100`),
yet the selector answers `tooLarge 210 100` instead of a Merged plan: the
code computes the video half's size as `filesize || filesize_approx || 0`,
which turns exact size `0` into the approximate `200`. -/
theorem C2_counterexample :
    (∀ f ∈ [cexVideoZero, cexAudioTen], combinedFilter f = false) ∧
    videoFilter cexVideoZero = true ∧ audioFilter cexAudioTen = true ∧
    specEffectiveSize cexVideoZero = some 0 ∧
    specEffectiveSize cexAudioTen = some 10 ∧
    select [cexVideoZero, cexAudioTen] 100 = .error (.tooLarge 210 100) :=
  ⟨by decide, rfl, rfl, rfl, rfl, rfl⟩

/-- C2 (amended): whenever Phase 2 is entered and best video-only and
audio-only candidates exist whose code effective sizes (exact if nonzero,
else approximate, else 0) sum to at most the budget, the selector returns
a Merged plan with `requiresMuxing = true`, selector string
`videoId + "+" + audioId`, and estimated size exactly the sum. -/
theorem C2_amended (fs : List Format) (budget : Int) (v a : Format)
    (hent : enteredPhase2 fs budget = true)
    (hv : bestVideo fs = some v) (ha : bestAudio fs = some a)
    (hsum : sortSize v + sortSize a ≤ budget) :
    select fs budget = .ok (.merged v a (sortSize v + sortSize a)) ∧
    planSelector (.merged v a (sortSize v + sortSize a)) =
      v.format_id ++ "+" ++ a.format_id ∧
    planRequiresMuxing (.merged v a (sortSize v + sortSize a)) = true ∧
    planEstimatedSize (.merged v a (sortSize v + sortSize a)) =
      sortSize v + sortSize a := by
  refine ⟨?_, rfl, rfl, rfl⟩
  rw [select_of_entered hent]
  unfold phase2
  rw [hv, ha]
  show (if sortSize v + sortSize a ≤ budget then
      (Except.ok (DownloadPlan.merged v a (sortSize v + sortSize a)) :
        Except SelectionError DownloadPlan)
      else .error (.tooLarge (sortSize v + sortSize a) budget)) = _
  rw [if_pos hsum]

/-- C2 witness: the amended theorem applied to a video-only/audio-only
catalog whose sizes sum to 90 under the budget 100. -/
theorem C2_amended_witness :
    select [wVideo, wAudio] 100 = .ok (.merged wVideo wAudio (sortSize wVideo + sortSize wAudio)) ∧
    planSelector (.merged wVideo wAudio (sortSize wVideo + sortSize wAudio)) =
      wVideo.format_id ++ "+" ++ wAudio.format_id ∧
    planRequiresMuxing (.merged wVideo wAudio (sortSize wVideo + sortSize wAudio)) = true ∧
    planEstimatedSize (.merged wVideo wAudio (sortSize wVideo + sortSize wAudio)) =
      sortSize wVideo + sortSize wAudio :=
  C2_amended [wVideo, wAudio] 100 wVideo wAudio rfl rfl rfl (by decide)

/-- C3: whenever Phase 2 is reached and best video-only and audio-only
candidates both exist but their combined size exceeds the budget, the
selector fails with `tooLarge` carrying exactly that combined size and the
budget — it never falls back to any other combination. -/
theorem C3_too_large (fs : List Format) (budget : Int) (v a : Format)
    (hent : enteredPhase2 fs budget = true)
    (hv : bestVideo fs = some v) (ha : bestAudio fs = some a)
    (hsum : budget < sortSize v + sortSize a) :
    select fs budget = .error (.tooLarge (sortSize v + sortSize a) budget) := by
  rw [select_of_entered hent]
  unfold phase2
  rw [hv, ha]
  show (if sortSize v + sortSize a ≤ budget then
      (Except.ok (DownloadPlan.merged v a (sortSize v + sortSize a)) :
        Except SelectionError DownloadPlan)
      else .error (.tooLarge (sortSize v + sortSize a) budget)) = _
  rw [if_neg (by omega)]

/-- C3 witness: a 90 MB video half and a 20 MB audio half against the
budget 100 produce `tooLarge 110 100`. -/
theorem C3_too_large_witness :
    select [wVideoBig, wAudioBig] 100 =
      .error (.tooLarge (sortSize wVideoBig + sortSize wAudioBig) 100) :=
  C3_too_large [wVideoBig, wAudioBig] 100 wVideoBig wAudioBig rfl rfl rfl (by decide)

/-- C4: when every descriptor of the catalog is excluded (disallowed
container, no track at all, or unknown size) — which covers the empty
catalog — or when Phase 2 is reached and either single-track candidate
list is empty, the selector fails with `noViableFormats`, an error
distinct from every `tooLarge` value. -/
theorem C4_no_viable (fs : List Format) (budget : Int)
    (h : (∀ f ∈ fs, excludedDescriptor f) ∨
      (enteredPhase2 fs budget = true ∧
        (bestVideo fs = none ∨ bestAudio fs = none))) :
    select fs budget = .error .noViableFormats ∧
    ∀ c b : Int, SelectionError.noViableFormats ≠ .tooLarge c b := by
  refine ⟨?_, fun c b hcb => SelectionError.noConfusion hcb⟩
  rcases h with hall | ⟨hent, hmiss⟩
  · have hcf : fs.filter combinedFilter = [] :=
      List.filter_eq_nil_iff.mpr fun f hf => by
        rw [(filters_false_of_excluded (hall f hf)).1]; simp
    have hvf : fs.filter videoFilter = [] :=
      List.filter_eq_nil_iff.mpr fun f hf => by
        rw [(filters_false_of_excluded (hall f hf)).2.1]; simp
    have haf : fs.filter audioFilter = [] :=
      List.filter_eq_nil_iff.mpr fun f hf => by
        rw [(filters_false_of_excluded (hall f hf)).2.2]; simp
    have hp1 : phase1 fs budget = none := by
      unfold phase1; rw [hcf]; rfl
    have hbv : bestVideo fs = none := by
      unfold bestVideo; rw [hvf]; rfl
    unfold select
    rw [hp1]
    unfold phase2
    rw [hbv]
  · rw [select_of_entered hent]
    unfold phase2
    rcases hmiss with hbv | hba
    · rw [hbv]
    · rw [hba]
      cases bestVideo fs <;> rfl

/-- C4 witness: a catalog whose only descriptor has neither track yields
`noViableFormats`. -/
theorem C4_no_viable_witness :
    select [wNoTrack] 100 = .error .noViableFormats ∧
    ∀ c b : Int, SelectionError.noViableFormats ≠ .tooLarge c b :=
  C4_no_viable [wNoTrack] 100 (Or.inl (by decide))

/-- C5 counterexample: the combined mp4 descriptor `cexZeroNoApprox`
(exact size `0`, no approximate size) passes the eligibility filter and
has known effective size `0 ≤ 100`, yet the selector does not return it:
the budget walk's truthiness test skips it and the request ends in
`noViableFormats`. -/
theorem C5_counterexample :
    combinedFilter cexZeroNoApprox = true ∧
    specEffectiveSize cexZeroNoApprox = some 0 ∧
    select [cexZeroNoApprox] 100 = .error .noViableFormats :=
  ⟨rfl, rfl, rfl⟩

/-- C5 (amended): a combined descriptor with exact size `0` and no
approximate size, both tracks present and an allowed container, is
eligible (passes the Phase-1 filter) but is never selected in Phase 1
under any budget: size presence in the budget walk is decided by
truthiness, so its walk size is falsy and a one-descriptor catalog ends in
`noViableFormats`. -/
theorem C5_amended (f : Format) (budget : Int)
    (hv : f.vcodec ≠ "none") (ha : f.acodec ≠ "none")
    (hext : allowedExtensions.contains f.ext = true)
    (hfs : f.filesize = some 0) (hfa : f.filesize_approx = none) :
    combinedFilter f = true ∧ walkOk budget f = false ∧
    select [f] budget = .error .noViableFormats := by
  have hcf : combinedFilter f = true := by
    unfold combinedFilter sizeKnown
    rw [hext, hfs]
    simp [hv, ha]
  have hwk : walkOk budget f = false := by
    unfold walkOk walkSize
    rw [hfs, hfa]
    rfl
  have hvf : videoFilter f = false := by
    unfold videoFilter
    have hbeq : (f.acodec == "none") = false := by simp [ha]
    rw [hbeq]
    simp
  have hp1 : phase1 [f] budget = none := by
    unfold phase1
    have hfil : List.filter combinedFilter [f] = [f] := by
      simp [List.filter, hcf]
    rw [hfil]
    show List.find? (walkOk budget) [f] = none
    simp [List.find?, hwk]
  have hbv : bestVideo [f] = none := by
    unfold bestVideo
    have hfil : List.filter videoFilter [f] = [] := by
      simp [List.filter, hvf]
    rw [hfil]
    rfl
  refine ⟨hcf, hwk, ?_⟩
  unfold select
  rw [hp1]
  unfold phase2
  rw [hbv]

/-- C5 witness: the amended theorem applied to the concrete descriptor. -/
theorem C5_amended_witness :
    combinedFilter cexZeroNoApprox = true ∧
    walkOk 100 cexZeroNoApprox = false ∧
    select [cexZeroNoApprox] 100 = .error .noViableFormats :=
  C5_amended cexZeroNoApprox 100 (by decide) (by decide) (by decide)
    (by decide) (by decide)

/-- C6 counterexample: for the descriptor with exact size `0` and
approximate size `5`, the spec effective size is `0` but every selection
use site computes `5` — the code's size chain is truthy, not
is-defined. -/
theorem C6_counterexample :
    specEffectiveSize cexZeroWithApprox = some 0 ∧
    walkSize cexZeroWithApprox = some 5 ∧
    sortSize cexZeroWithApprox = 5 ∧
    walkSize cexZeroWithApprox ≠ specEffectiveSize cexZeroWithApprox :=
  ⟨rfl, rfl, rfl, by decide⟩

/-- C6 (amended): every use of a descriptor's size in selection goes
through the truthy chain `filesize || filesize_approx` — the exact size
when it is present and nonzero, otherwise the approximate size — with `0`
substituted in the sort key and Phase-2 sum when that chain is undefined;
it agrees with the spec's effective size except exactly when the exact
size is `0`. -/
theorem C6_amended (f : Format) :
    (∀ v : Int, f.filesize = some v → v ≠ 0 → walkSize f = some v) ∧
    (f.filesize = some 0 → walkSize f = f.filesize_approx) ∧
    (f.filesize = none → walkSize f = f.filesize_approx) ∧
    sortSize f = (walkSize f).getD 0 ∧
    (walkSize f = specEffectiveSize f ∨
      (f.filesize = some 0 ∧ walkSize f = f.filesize_approx)) := by
  refine ⟨?_, ?_, ?_, rfl, ?_⟩
  · intro v hv hne
    simp [walkSize, jsOrNum, hv, hne]
  · intro h0
    simp [walkSize, jsOrNum, h0]
  · intro hn
    simp [walkSize, jsOrNum, hn]
  · cases hf : f.filesize with
    | none => exact Or.inl (by simp [walkSize, jsOrNum, specEffectiveSize, hf])
    | some v =>
      by_cases h0 : v = 0
      · subst h0
        exact Or.inr ⟨rfl, by simp [walkSize, jsOrNum, hf]⟩
      · exact Or.inl (by simp [walkSize, jsOrNum, specEffectiveSize, hf, h0])

/-- C6 witness: the amended theorem applied to the exact-size-0 descriptor
with a defined approximate size. -/
theorem C6_amended_witness :
    walkSize cexZeroWithApprox = cexZeroWithApprox.filesize_approx ∧
    sortSize cexZeroWithApprox = (walkSize cexZeroWithApprox).getD 0 :=
  ⟨(C6_amended cexZeroWithApprox).2.1 rfl,
    (C6_amended cexZeroWithApprox).2.2.2.1⟩

/-- C7: a descriptor with neither track, or with both size fields absent,
is never chosen by the selector — not as a Combined plan and not as either
half of a Merged plan. -/
theorem C7_never_chosen (fs : List Format) (budget : Int) (f : Format)
    (p : DownloadPlan)
    (hbad : (f.vcodec = "none" ∧ f.acodec = "none") ∨
      (f.filesize = none ∧ f.filesize_approx = none))
    (hsel : select fs budget = .ok p) :
    (∀ s, p ≠ .combined f s) ∧ (∀ g s, p ≠ .merged f g s) ∧
    (∀ g s, p ≠ .merged g f s) := by
  have hex : excludedDescriptor f := by
    rcases hbad with h | h
    · exact Or.inr (Or.inl h)
    · exact Or.inr (Or.inr h)
  obtain ⟨hcf, hvf, haf⟩ := filters_false_of_excluded hex
  rcases select_ok_inv hsel with ⟨g, s, rfl, _, hgcf⟩ |
    ⟨v, a, s, rfl, _, hvft, _, haft⟩
  · refine ⟨?_, fun g' s' heq => DownloadPlan.noConfusion heq,
      fun g' s' heq => DownloadPlan.noConfusion heq⟩
    intro s' heq
    injection heq with hg _
    have hgt : combinedFilter f = true := hg ▸ hgcf
    rw [hcf] at hgt
    exact Bool.noConfusion hgt
  · refine ⟨fun s' heq => DownloadPlan.noConfusion heq, ?_, ?_⟩
    · intro g' s' heq
      injection heq with hg _ _
      have hvt : videoFilter f = true := hg ▸ hvft
      rw [hvf] at hvt
      exact Bool.noConfusion hvt
    · intro g' s' heq
      injection heq with _ hg _
      have hat : audioFilter f = true := hg ▸ haft
      rw [haf] at hat
      exact Bool.noConfusion hat

/-- C7 witness: with a good combined descriptor and a trackless descriptor
in the catalog, the chosen plan is not built from the trackless one. -/
theorem C7_witness :
    (∀ s, DownloadPlan.combined wCombined 50 ≠ .combined wNoTrack s) ∧
    (∀ g s, DownloadPlan.combined wCombined 50 ≠ .merged wNoTrack g s) ∧
    (∀ g s, DownloadPlan.combined wCombined 50 ≠ .merged g wNoTrack s) :=
  C7_never_chosen [wCombined, wNoTrack] 100 wNoTrack
    (.combined wCombined 50) (Or.inl (by decide)) rfl

/-- C8: for every invocation, whichever of the timeout, process-close and
process-error events arrives first commits the single outcome (timed out;
succeeded on exit code 0; failed on nonzero exit or launch error), and all
later events are discarded without a second response. -/
theorem C8_single_outcome (e : ProcEvent) (evs : List ProcEvent) :
    runEvents initialOrchState (e :: evs) = [eventOutcome e] := by
  cases e with
  | timeoutFired =>
    simp only [runEvents, handleEvent, initialOrchState, eventOutcome]
    simpa using runEvents_sent evs ⟨true, false⟩ rfl
  | closed code =>
    simp only [runEvents, handleEvent, initialOrchState, eventOutcome]
    simpa using runEvents_sent evs ⟨true, false⟩ rfl
  | errored =>
    simp only [runEvents, handleEvent, initialOrchState, eventOutcome]
    simpa using runEvents_sent evs ⟨true, false⟩ rfl

/-- C9: a sweep deletes exactly the entries whose stat succeeds, whose age
strictly exceeds the retention threshold and whose unlink succeeds; the
sweep of a concatenation is the concatenation of the sweeps, so a stat or
delete failure on one entry never prevents handling of the others. -/
theorem C9_sweeper (now retentionMs : Int) (es l₁ l₂ : List SweepEntry) :
    cleanUpOldFiles now retentionMs es =
      (es.filter (sweepDeletes now retentionMs)).map SweepEntry.name ∧
    cleanUpOldFiles now retentionMs (l₁ ++ l₂) =
      cleanUpOldFiles now retentionMs l₁ ++ cleanUpOldFiles now retentionMs l₂ ∧
    (∀ e : SweepEntry, sweepDeletes now retentionMs e = true ↔
      ∃ b, e.birthtimeMs = some b ∧ now - b > retentionMs ∧
        e.unlinkOk = true) := by
  refine ⟨cleanUpOldFiles_eq_filter now retentionMs es, ?_, ?_⟩
  · rw [cleanUpOldFiles_eq_filter, cleanUpOldFiles_eq_filter,
      cleanUpOldFiles_eq_filter, List.filter_append, List.map_append]
  · intro e
    unfold sweepDeletes
    cases hb : e.birthtimeMs with
    | none => simp [hb]
    | some b => simp [hb]

/-- C10: explicitly configuring any recognized numeric option as `0`
produces the same settings as leaving it absent, because each default is
applied with the truthiness pattern `config?.x || default`; the resulting
defaults are port 3005, timeout 15000 ms, retention 3600000 ms, cleanup
interval 600000 ms, and a 104857600-byte size limit. -/
theorem C10_zero_uses_defaults (c : ApiConfig) :
    mkSettings {c with port := some 0} = mkSettings {c with port := none} ∧
    mkSettings {c with timeout := some 0} =
      mkSettings {c with timeout := none} ∧
    mkSettings {c with fileRetentionTimeSeconds := some 0} =
      mkSettings {c with fileRetentionTimeSeconds := none} ∧
    mkSettings {c with cleanUpIntervalSeconds := some 0} =
      mkSettings {c with cleanUpIntervalSeconds := none} ∧
    mkSettings {c with maxDownloadSizeMB := some 0} =
      mkSettings {c with maxDownloadSizeMB := none} ∧
    mkSettings ⟨some 0, some 0, some 0, some 0, some 0⟩ =
      ⟨3005, 15000, 3600000, 600000, 104857600⟩ :=
  ⟨rfl, rfl, rfl, rfl, rfl, rfl⟩

end YtDlpApi
